import Mathlib

/-!
Shallow embedding of `src/shell.c`, a line-oriented command interpreter with
builtin dispatch, PATH-based external-command launch, foreground/background
process-group handling and standard-descriptor redirection.

Conventions of the embedding:
* token sequences (`struct tokens`) are `List String`; `tokens_get_token`
  at an out-of-range index returns `none` (the C tokenizer returns NULL);
* OS primitives that can fail (`execv`, `chdir`, `fopen`) are oracles passed
  in as functions, so the control flow of the C code around them is what is
  being modelled;
* the descriptor table is a function `Nat → Option Nat` from descriptor slot
  to the identity of the open file description it holds.
-/

namespace Shell

/-! ### Builtin registry and lookup (`cmd_table`, `lookup`, lines 50-56 and 173-178) -/

/-- The static builtin table `cmd_table`: (name, doc) pairs in declaration
order.  The handler field is not part of the lookup logic. -/
def cmd_table : List (String × String) :=
  [("?", "show this help menu"),
   ("exit", "exit the command shell"),
   ("pwd", "prints current working directory"),
   ("cd", "changes current working directory"),
   ("wait", "waits for all processes in background to finish")]

/-- The scan loop of `lookup`: walk the table from index `i`, return the
index of the first entry whose name equals `cmd` by exact string comparison
(`strcmp == 0`), else `-1`. -/
def lookupAux (cmd : String) : List (String × String) → Nat → Int
  | [], _ => -1
  | e :: rest, i => if e.1 = cmd then (i : Int) else lookupAux cmd rest (i + 1)

/-- The function `lookup(cmd)` from shell.c lines 173-178. -/
def lookup (cmd : String) : Int :=
  lookupAux cmd cmd_table 0

/-- The dispatch decision of `main` (lines 251-259): `fundex >= 0` runs the
builtin at that index, otherwise the line is treated as an external command. -/
def isBuiltinDispatch (firstToken : String) : Bool :=
  decide (0 ≤ lookup firstToken)

/-! ### PATH resolution in the forked child (`exec_func`, lines 135-159) -/

/-- Repeated `strtok(env_path, ":")` to exhaustion: the colon-separated
fields of PATH with empty fields skipped (strtok never yields an empty
token).  Split at the character level over the underlying character list
of the string. -/
def strtokColon (s : String) : List String :=
  ((s.data.splitOn ':').filter (fun d => d ≠ [])).map String.mk

/-- The absolute-path test of `exec_func` (lines 135-138): `strncpy` copies
the first character of `path` into `temp` and the branch is taken when
`temp` compares equal to `"/"`. -/
def firstCharSlash (path : String) : Bool :=
  match path.data with
  | [] => false
  | c :: _ => c = '/'

/-- The candidate executable paths tried by the PATH-search loop, in order:
`directory ++ "/" ++ path` for each strtok field of PATH. -/
def pathCandidates (envPath path : String) : List String :=
  (strtokColon envPath).map (fun d => d ++ "/" ++ path)

/-- One `execv` attempt loop over the candidate list: each candidate is
passed to `execv`; a successful `execv` replaces the process image so the
loop ends there; otherwise the loop advances.  Returns the list of paths
attempted in order and the successfully executed path, if any. -/
def execLoop (execOk : String → Bool) : List String → List String × Option String
  | [] => ([], none)
  | c :: rest =>
    if execOk c then ([c], some c)
    else
      let r := execLoop execOk rest
      (c :: r.1, r.2)

/-- Observable behaviour of the child after argv construction. -/
structure ChildResult where
  /-- paths passed to `execv`, in order -/
  attempts : List String
  /-- whether `fprintf(stdout, "execv error: ...")` ran -/
  reportedError : Bool
  /-- the image successfully executed, if any -/
  execed : Option String
  deriving Repr, DecidableEq

/-- The executable-resolution part of the child branch of `exec_func`
(lines 135-159).  `temp` holds the first character of `path`; if it is
`"/"` the path is `execv`ed directly (reporting an error on failure);
otherwise PATH is split on `:` and each `dir ++ "/" ++ path` is tried in
order, with one error report after the loop if no attempt succeeded. -/
def childExec (execOk : String → Bool) (envPath path : String) : ChildResult :=
  if firstCharSlash path then
    if execOk path then
      { attempts := [path], reportedError := false, execed := some path }
    else
      { attempts := [path], reportedError := true, execed := none }
  else
    let r := execLoop execOk (pathCandidates envPath path)
    { attempts := r.1, reportedError := r.2.isNone, execed := r.2 }

/-- What becomes of the forked child process as written in shell.c: a
successful `execv` replaces the image; after an exhausted search the code
prints the error and then falls through to `return 1` (line 169), so the
child returns out of `exec_func` into the read loop of `main` — there is no
`exit` call on the failure path. -/
inductive ChildFate where
  /-- the child became the named program image -/
  | execedImage (path : String)
  /-- the child process terminated -/
  | terminated
  /-- the child returned into the read loop of the shell (a duplicate interpreter) -/
  | returnedToShell
  deriving Repr, DecidableEq

/-- The fate of the child under the code of shell.c: exec success replaces
the image; exec failure reports and then returns into the read loop. -/
def childFate (execOk : String → Bool) (envPath path : String) : ChildFate :=
  match (childExec execOk envPath path).execed with
  | some p => ChildFate.execedImage p
  | none => ChildFate.returnedToShell

/-! ### argv construction in the child (`exec_func`, lines 123-133) -/

/-- The value `tokens_get_token(tokens, line_size - 2)` as computed in `main`
(line 232): with fewer than two tokens the C index underflows `size_t`
and the tokenizer returns NULL for the out-of-range index. -/
def redirect_check (tokens : List String) : Option String :=
  if 2 ≤ tokens.length then tokens[tokens.length - 2]? else none

/-- The test at line 124: a non-NULL `redirect_check` equal to `">"`
or `"<"`. -/
def isRedirToken (redirect : Option String) : Bool :=
  match redirect with
  | some r => r = ">" ∨ r = "<"
  | none => false

/-- argv construction (lines 123-133): `arg_len` is the token count, or the
token count minus two when the redirection test holds; `argv[i]` is token
`i` for `i < arg_len` and `argv[arg_len]` is NULL.  The NULL terminator is
modelled as a trailing `none`. -/
def build_argv (tokens : List String) (redirect : Option String) : List (Option String) :=
  let arg_len := if isRedirToken redirect then tokens.length - 2 else tokens.length
  (tokens.take arg_len).map some ++ [none]

/-! ### Parent branch of `exec_func` (lines 160-168) and the background
counter (`num_bprocesses`, `cmd_wait`, `init_shell`) -/

/-- One observable action of the parent after a successful `fork`. -/
inductive ParentAction where
  /-- A call `tcsetpgrp(0, pgid)` giving the terminal to process group `pgid` -/
  | transferTerminal (pgid : Nat)
  /-- A call `wait(NULL)`: block until ANY child changes state -/
  | waitAnyChild
  /-- A call `waitpid(pid, ...)`: block until the specific child `pid` changes
  state (does not occur in shell.c; used to state the claim of the spec) -/
  | waitSpecificChild (pid : Nat)
  /-- A call `tcsetpgrp(0, getpid())` reclaiming the terminal for the shell -/
  | reclaimTerminal (pgid : Nat)
  /-- The increment `num_bprocesses++` -/
  | incrementBgCounter
  /-- a reentry into the command dispatcher -/
  | dispatchReentry
  deriving Repr, DecidableEq

/-- The parent branch of `exec_func` (lines 160-168): foreground gives the
terminal to the group of the child (`setpgid` in the child made its pgid equal
to its pid), calls `wait(NULL)`, then reclaims the terminal for the shell;
background increments `num_bprocesses` and returns at once. -/
def parentActions (childPid shellPid : Nat) (runInFg : Bool) : List ParentAction :=
  if runInFg then
    [ParentAction.transferTerminal childPid, ParentAction.waitAnyChild,
     ParentAction.reclaimTerminal shellPid]
  else
    [ParentAction.incrementBgCounter]

/-- Modelled from the words of the spec, for comparison with `parentActions`:
the claimed foreground sequence: transfer terminal control to the process
process group, block until that specific child changes state, then reclaim
group of the child, block until that specific child changes state, then
reclaim terminal control for the own process group of the shell. -/
def claimedForegroundActions (childPid shellPid : Nat) : List ParentAction :=
  [ParentAction.transferTerminal childPid, ParentAction.waitSpecificChild childPid,
   ParentAction.reclaimTerminal shellPid]

/-- The builtin `cmd_wait` (lines 96-102) acting on the value of `num_bprocesses`: as
long as the counter is strictly positive, call `wait(NULL)` and decrement.
Returns the number of `wait(NULL)` calls made and the final counter value.
The counter is a C `int`, modelled as `Int`. -/
def cmd_wait (n : Int) : Nat × Int :=
  if h : 0 < n then
    let r := cmd_wait (n - 1)
    (r.1 + 1, r.2)
  else
    (0, n)
termination_by n.toNat
decreasing_by
  omega

/-- The shell operations that touch `num_bprocesses`. -/
inductive ShellOp where
  /-- A run of `exec_func` with `run_in_fg == 0`: parent does `num_bprocesses++` -/
  | backgroundSpawn
  /-- the `wait` builtin -/
  | waitBuiltin
  /-- A run of `exec_func` with `run_in_fg != 0`: no counter access -/
  | foregroundSpawn
  /-- any builtin other than `wait`: no counter access -/
  | otherBuiltin
  deriving Repr, DecidableEq

/-- Effect of each shell operation on `num_bprocesses`. -/
def applyOp (n : Int) : ShellOp → Int
  | ShellOp.backgroundSpawn => n + 1
  | ShellOp.waitBuiltin => (cmd_wait n).2
  | ShellOp.foregroundSpawn => n
  | ShellOp.otherBuiltin => n

/-- The value of `num_bprocesses` after a sequence of shell operations, starting from
the `init_shell` value `num_bprocesses = 0` (line 205). -/
def runOps (ops : List ShellOp) : Int :=
  ops.foldl applyOp 0

/-! ### The `cd` builtin (`cmd_cd`, lines 82-93) -/

/-- Observable result of one `cmd_cd` call. -/
structure CdResult where
  /-- lines printed to stdout -/
  output : List String
  /-- current working directory afterwards -/
  newCwd : String
  /-- whether the interpreter process terminated during the call -/
  terminated : Bool
  /-- the C return value -/
  ret : Int
  deriving Repr, DecidableEq

/-- The builtin `cmd_cd` (lines 82-93).  Here `chdirErr path = some e` models
`chdir(path) == -1` with `strerror(errno) = e`; `none` models success, in
which case the OS moves the working directory to `applyChdir cwd path`.
With exactly one token (just `"cd"`) the function prints
`"cd error: no arguments"` and returns 0 without calling `chdir`; otherwise
token 1 is the path and a `chdir` failure prints
`"chdir error: " ++ strerror`.  No branch exits the process. -/
def cmd_cd (cwd : String) (tokens : List String)
    (chdirErr : String → Option String) (applyChdir : String → String → String) :
    CdResult :=
  if tokens.length = 1 then
    { output := ["cd error: no arguments"], newCwd := cwd, terminated := false, ret := 0 }
  else
    let path := tokens.getD 1 ""
    match chdirErr path with
    | some e =>
      { output := ["chdir error: " ++ e], newCwd := cwd, terminated := false, ret := 1 }
    | none =>
      { output := [], newCwd := applyChdir cwd path, terminated := false, ret := 1 }

/-! ### Redirection setup and descriptor restore (`main`, lines 235-248
and 261-262) -/

/-- A descriptor table: slot number to the identity of the open file
description it holds (`none` = closed slot). -/
def Fds : Type := Nat → Option Nat

/-- A call `dup2(src, dst)`: slot `dst` now holds whatever description slot `src`
holds; every other slot is untouched. -/
def dup2 (t : Fds) (src dst : Nat) : Fds :=
  fun k => if k = dst then t src else t k

/-- A call `dup(src)` returning the fresh slot `fresh`: `fresh` now holds the
description held by `src`. -/
def dupTo (t : Fds) (src fresh : Nat) : Fds :=
  fun k => if k = fresh then t src else t k

/-- What the redirection block of `main` (lines 235-248) does to the
descriptor table and to the saved `std_out`/`std_in` ints.  `std_out`
starts as 1 and `std_in` as 0.  On `">"`: `fopen` installs a new open file
description `fileDesc` at the fresh slot `fdFile`, `std_out = dup(1)`
saves the description of slot 1 at the fresh slot `savedFd`, and
`dup2(fileno(file), 1)` points slot 1 at the file.  On `"<"` the same with
slot 0 and `std_in`.  Otherwise nothing happens.  Returns the table after
setup and the values of `(std_out, std_in)`. -/
def redirSetup (t : Fds) (redirect : Option String) (fileDesc fdFile savedFd : Nat) :
    Fds × Nat × Nat :=
  if redirect = some ">" then
    let tOpen : Fds := fun k => if k = fdFile then some fileDesc else t k
    let tSaved := dupTo tOpen 1 savedFd
    (dup2 tSaved fdFile 1, savedFd, 0)
  else if redirect = some "<" then
    let tOpen : Fds := fun k => if k = fdFile then some fileDesc else t k
    let tSaved := dupTo tOpen 0 savedFd
    (dup2 tSaved fdFile 0, 1, savedFd)
  else
    (t, 1, 0)

/-- The unconditional restore after dispatch (lines 261-262):
`dup2(std_out, 1); dup2(std_in, 0);`. -/
def redirRestore (t : Fds) (std_out std_in : Nat) : Fds :=
  dup2 (dup2 t std_out 1) std_in 0

/-- Descriptor table over a whole line: setup, then dispatch (builtins and
the parent side of `exec_func` never touch slots 0/1 of the parent table;
the child inherits a fork-time copy), then restore. -/
def lineFds (t : Fds) (redirect : Option String) (fileDesc fdFile savedFd : Nat) : Fds :=
  let s := redirSetup t redirect fileDesc fdFile savedFd
  redirRestore s.1 s.2.1 s.2.2

/-- What the open-failure path of the redirection block does.  In shell.c
the `FILE* file = fopen(...)` result is not checked: `fileno(file)` and
`dup2(fileno(file), ...)` run unconditionally, so a failed open hands the
null handle to them, and no error is printed on any path. -/
structure RedirOpenStep where
  /-- whether any I/O error was reported for a failed open -/
  errorReported : Bool
  /-- the handle passed to `fileno`/`dup2` (`some none` = the NULL handle) -/
  handleToDup : Option (Option Nat)
  deriving Repr, DecidableEq

/-- The redirection block of `main` observed at the `fopen` boundary:
`openResult` is `some fd` on success and `none` (NULL) on failure.  When
the redirection test holds the handle — checked or not — flows into
`fileno`/`dup2`; no branch reports an open failure. -/
def redirOpenStep (redirect : Option String) (openResult : Option Nat) : RedirOpenStep :=
  if isRedirToken redirect then
    { errorReported := false, handleToDup := some openResult }
  else
    { errorReported := false, handleToDup := none }

end Shell

namespace Shell

/-! ### Helper lemmas -/

/-- The attempt loop stops at the first successful candidate: the attempted
paths are the failing head of the list followed by the first success (if
any), and the executed image is exactly the first candidate accepted by
`execOk`. -/
theorem execLoop_eq (execOk : String → Bool) :
    ∀ l : List String,
      execLoop execOk l =
        (l.takeWhile (fun c => !execOk c) ++ (l.find? execOk).toList, l.find? execOk)
  | [] => rfl
  | c :: rest => by
    by_cases h : execOk c
    · simp [execLoop, h, List.find?, List.takeWhile]
    · simp [execLoop, h, List.find?, List.takeWhile, execLoop_eq execOk rest]

/-- A run of the `wait` builtin from a nonnegative counter makes one
`wait(NULL)` call per counted job and ends with the counter at zero. -/
theorem cmd_wait_eq (n : Int) (h : 0 ≤ n) : cmd_wait n = (n.toNat, 0) := by
  obtain ⟨k, rfl⟩ := Int.eq_ofNat_of_zero_le h
  induction k with
  | zero =>
    rw [cmd_wait]
    simp
  | succ m ih =>
    rw [cmd_wait]
    rw [dif_pos (by omega : (0 : Int) < ((m + 1 : Nat) : Int))]
    have hm1 : ((m + 1 : Nat) : Int) - 1 = (m : Int) := by push_cast; ring
    rw [hm1, ih (by omega)]
    simp

end Shell

namespace Shell

/-- Claim C1: a command name beginning with the path separator is execed
directly with no PATH candidate attempted; any other name is resolved by
splitting PATH on colons and attempting exec on directory + "/" + name
left to right until one succeeds, with an error reported exactly when all
candidates are exhausted; PATH "/usr/bin:/bin" with command "ls" yields
the candidates /usr/bin/ls then /bin/ls in that order. -/
theorem exec_path_resolution (execOk : String → Bool) (envPath name : String) :
    (firstCharSlash name = true →
      (childExec execOk envPath name).attempts = [name]) ∧
    (firstCharSlash name = false →
      (childExec execOk envPath name).attempts =
        (pathCandidates envPath name).takeWhile (fun c => !execOk c) ++
          ((pathCandidates envPath name).find? execOk).toList ∧
      (childExec execOk envPath name).execed = (pathCandidates envPath name).find? execOk ∧
      (childExec execOk envPath name).reportedError =
        ((pathCandidates envPath name).find? execOk).isNone) ∧
    pathCandidates "/usr/bin:/bin" "ls" = ["/usr/bin/ls", "/bin/ls"] := by
  refine ⟨?_, ?_, ?_⟩
  · intro h
    by_cases he : execOk name <;> simp [childExec, h, he]
  · intro h
    simp [childExec, h, execLoop_eq]
  · decide

/-- Witness for C1 at concrete inputs: with PATH "/usr/bin:/bin" and only
/bin/ls execable, the command "ls" attempts /usr/bin/ls then /bin/ls and
execs the latter; the absolute command "/bin/echo" attempts only itself. -/
theorem exec_path_resolution_witness :
    (childExec (fun p => p == "/bin/ls") "/usr/bin:/bin" "ls").attempts =
      ["/usr/bin/ls", "/bin/ls"] ∧
    (childExec (fun p => p == "/bin/ls") "/usr/bin:/bin" "ls").execed = some "/bin/ls" ∧
    (childExec (fun _ => false) "/usr/bin:/bin" "/bin/echo").attempts = ["/bin/echo"] := by
  have h1 := (exec_path_resolution (fun p => p == "/bin/ls") "/usr/bin:/bin" "ls").2.1
    (by decide)
  have h2 := (exec_path_resolution (fun _ => false) "/usr/bin:/bin" "/bin/echo").1
    (by decide)
  exact ⟨h1.1.trans (by decide), h1.2.1.trans (by decide), h2⟩

/-- Claim C2: contrary to the claim, the forked child does NOT terminate
after an exhausted executable search.  At the failing input — command
"doesnotexist123", PATH "/usr/bin:/bin", every exec failing — the child
reports the error once and then returns into the read loop of the shell
as a duplicate interpreter, because the failure path of `exec_func` falls
through to `return 1` with no exit call. -/
theorem exec_failure_child_returns_to_shell :
    childFate (fun _ => false) "/usr/bin:/bin" "doesnotexist123" =
      ChildFate.returnedToShell ∧
    (childExec (fun _ => false) "/usr/bin:/bin" "doesnotexist123").reportedError = true ∧
    (childExec (fun _ => false) "/usr/bin:/bin" "doesnotexist123").attempts =
      ["/usr/bin/doesnotexist123", "/bin/doesnotexist123"] := by
  decide

end Shell

namespace Shell

/-- Claim C3 counterexample: for the foreground parent with child pid 42
and shell pid 7, the action sequence of the code is NOT the claimed
sequence transfer → wait-for-that-specific-child → reclaim: the blocking
call of the code is `wait(NULL)`, the wait-for-ANY-child primitive, and no
wait restricted to the specific child 42 occurs. -/
theorem foreground_wait_not_specific_child :
    parentActions 42 7 true ≠ claimedForegroundActions 42 7 ∧
    ParentAction.waitAnyChild ∈ parentActions 42 7 true ∧
    ParentAction.waitSpecificChild 42 ∉ parentActions 42 7 true := by
  decide

/-- Claim C3 as amended: for every foreground external command, the parent
performs, in strict order with no intervening dispatcher reentry, exactly:
transfer terminal control to the process group of the child, block in the
generic wait-for-any-child primitive, then reclaim terminal control for
the own process group of the shell. -/
theorem foreground_terminal_handoff_order (childPid shellPid : Nat) :
    parentActions childPid shellPid true =
      [ParentAction.transferTerminal childPid, ParentAction.waitAnyChild,
       ParentAction.reclaimTerminal shellPid] ∧
    ParentAction.dispatchReentry ∉ parentActions childPid shellPid true := by
  refine ⟨rfl, ?_⟩
  simp [parentActions]

/-- Claim C4: from a nonnegative counter value `n`, the `wait` builtin
makes exactly one wait-for-any-child call per outstanding counted job
(`n` calls in total), the counter is zero when it returns, a background
spawn increments the counter by exactly one, and no other operation
changes it. -/
theorem wait_builtin_counter (n : Int) (h : 0 ≤ n) :
    (cmd_wait n).1 = n.toNat ∧
    (cmd_wait n).2 = 0 ∧
    applyOp n ShellOp.backgroundSpawn = n + 1 ∧
    applyOp n ShellOp.foregroundSpawn = n ∧
    applyOp n ShellOp.otherBuiltin = n := by
  rw [cmd_wait_eq n h]
  exact ⟨rfl, rfl, rfl, rfl, rfl⟩

/-- Witness for C4 at the concrete counter value 3: the `wait` builtin
makes three reap calls and leaves the counter at zero, and a background
spawn from 3 moves the counter to 4. -/
theorem wait_builtin_counter_witness :
    (cmd_wait 3).1 = 3 ∧ (cmd_wait 3).2 = 0 ∧
    applyOp 3 ShellOp.backgroundSpawn = 4 := by
  have h := wait_builtin_counter 3 (by decide)
  exact ⟨h.1, h.2.1, h.2.2.1⟩

/-- Claim C10: starting from the `init_shell` value zero, every sequence
of shell operations (background spawns, `wait` builtin runs, foreground
spawns, other builtins) leaves `num_bprocesses` nonnegative. -/
theorem num_bprocesses_nonneg (ops : List ShellOp) : 0 ≤ runOps ops := by
  have general : ∀ (l : List ShellOp) (n : Int), 0 ≤ n → 0 ≤ l.foldl applyOp n := by
    intro l
    induction l with
    | nil => intro n hn; simpa using hn
    | cons op rest ih =>
      intro n hn
      refine ih (applyOp n op) ?_
      cases op with
      | backgroundSpawn => simpa [applyOp] using by omega
      | waitBuiltin => simp [applyOp, cmd_wait_eq n hn]
      | foregroundSpawn => simpa [applyOp] using hn
      | otherBuiltin => simpa [applyOp] using hn
  exact general ops 0 le_rfl

end Shell

namespace Shell

/-- Claim C5: the first token is matched against the registry names by
exact, case-sensitive string equality; a token is dispatched as a builtin
exactly when it is one of ?, exit, pwd, cd, wait; the returned index is
the first matching entry (no earlier entry matches); and the token Exit
does not match, so it is treated as an external command. -/
theorem builtin_dispatch_exact (cmd : String) :
    (isBuiltinDispatch cmd = true ↔
      cmd = "?" ∨ cmd = "exit" ∨ cmd = "pwd" ∨ cmd = "cd" ∨ cmd = "wait") ∧
    (∀ i : Nat, lookup cmd = (i : Int) →
      (cmd_table.get? i).map Prod.fst = some cmd ∧
      ∀ j, j < i → (cmd_table.get? j).map Prod.fst ≠ some cmd) ∧
    isBuiltinDispatch "Exit" = false := by
  have hl : lookup cmd =
      if "?" = cmd then 0 else if "exit" = cmd then 1 else if "pwd" = cmd then 2
      else if "cd" = cmd then 3 else if "wait" = cmd then 4 else -1 := by
    simp [lookup, cmd_table, lookupAux]
  refine ⟨?_, ?_, by decide⟩
  · constructor
    · intro hb
      rw [isBuiltinDispatch, decide_eq_true_eq, hl] at hb
      split_ifs at hb with h1 h2 h3 h4 h5
      · exact Or.inl h1.symm
      · exact Or.inr (Or.inl h2.symm)
      · exact Or.inr (Or.inr (Or.inl h3.symm))
      · exact Or.inr (Or.inr (Or.inr (Or.inl h4.symm)))
      · exact Or.inr (Or.inr (Or.inr (Or.inr h5.symm)))
      · omega
    · intro hb
      rw [isBuiltinDispatch, decide_eq_true_eq]
      rcases hb with h | h | h | h | h <;> subst h <;> decide
  · intro i hi
    rw [hl] at hi
    split_ifs at hi with h1 h2 h3 h4 h5
    · subst h1
      obtain rfl : i = 0 := by omega
      exact ⟨by decide, fun j hj => absurd hj (Nat.not_lt_zero j)⟩
    · subst h2
      obtain rfl : i = 1 := by omega
      refine ⟨by decide, ?_⟩
      intro j hj
      interval_cases j
      decide
    · subst h3
      obtain rfl : i = 2 := by omega
      refine ⟨by decide, ?_⟩
      intro j hj
      interval_cases j <;> decide
    · subst h4
      obtain rfl : i = 3 := by omega
      refine ⟨by decide, ?_⟩
      intro j hj
      interval_cases j <;> decide
    · subst h5
      obtain rfl : i = 4 := by omega
      refine ⟨by decide, ?_⟩
      intro j hj
      interval_cases j <;> decide

/-- Witness for C5 at concrete tokens: Exit is not dispatched as a
builtin, pwd is, the entry found for pwd is index 2, and the earlier
index 0 does not hold pwd. -/
theorem builtin_dispatch_exact_witness :
    isBuiltinDispatch "Exit" = false ∧
    isBuiltinDispatch "pwd" = true ∧
    (cmd_table.get? 2).map Prod.fst = some "pwd" ∧
    (cmd_table.get? 0).map Prod.fst ≠ some "pwd" := by
  have h := builtin_dispatch_exact "pwd"
  have hE := builtin_dispatch_exact "Exit"
  refine ⟨hE.2.2, h.1.mpr (Or.inr (Or.inr (Or.inl rfl))), ?_, ?_⟩
  · exact (h.2.1 2 (by decide)).1
  · exact (h.2.1 2 (by decide)).2 0 (by omega)

/-- Claim C6: the cd builtin with zero arguments (token list of length
one) prints an error and leaves the working directory unchanged; with one
argument whose chdir fails it prints an error carrying the OS error text
and leaves the working directory unchanged; and on no path does the
interpreter terminate. -/
theorem cd_error_handling (cwd : String) (tokens : List String)
    (chdirErr : String → Option String) (applyChdir : String → String → String) :
    (tokens.length = 1 →
      (cmd_cd cwd tokens chdirErr applyChdir).output = ["cd error: no arguments"] ∧
      (cmd_cd cwd tokens chdirErr applyChdir).newCwd = cwd ∧
      (cmd_cd cwd tokens chdirErr applyChdir).terminated = false) ∧
    (∀ e, tokens.length = 2 → chdirErr (tokens.getD 1 "") = some e →
      (cmd_cd cwd tokens chdirErr applyChdir).output = ["chdir error: " ++ e] ∧
      (cmd_cd cwd tokens chdirErr applyChdir).newCwd = cwd ∧
      (cmd_cd cwd tokens chdirErr applyChdir).terminated = false) ∧
    (cmd_cd cwd tokens chdirErr applyChdir).terminated = false := by
  refine ⟨?_, ?_, ?_⟩
  · intro h
    simp [cmd_cd, h]
  · intro e hlen herr
    have h1 : ¬tokens.length = 1 := by omega
    have herr2 : chdirErr (tokens[1]?.getD "") = some e := by
      rw [← List.getD_eq_getElem?_getD]
      exact herr
    simp [cmd_cd, h1, herr2]
  · by_cases h : tokens.length = 1
    · simp [cmd_cd, h]
    · simp only [cmd_cd, if_neg h]
      cases chdirErr (tokens.getD 1 "") <;> simp

/-- Witness for C6 at concrete inputs: bare cd prints the no-arguments
error; cd /does-not-exist with a failing chdir prints the OS error text
and leaves the working directory at /home; neither run terminates the
interpreter. -/
theorem cd_error_handling_witness :
    (cmd_cd "/home" ["cd"] (fun _ => some "No such file or directory")
      (fun c _ => c)).output = ["cd error: no arguments"] ∧
    (cmd_cd "/home" ["cd", "/does-not-exist"] (fun _ => some "No such file or directory")
      (fun c _ => c)).output = ["chdir error: No such file or directory"] ∧
    (cmd_cd "/home" ["cd", "/does-not-exist"] (fun _ => some "No such file or directory")
      (fun c _ => c)).newCwd = "/home" ∧
    (cmd_cd "/home" ["cd", "/does-not-exist"] (fun _ => some "No such file or directory")
      (fun c _ => c)).terminated = false := by
  have h1 := cd_error_handling "/home" ["cd"]
    (fun _ => some "No such file or directory") (fun c _ => c)
  have h2 := cd_error_handling "/home" ["cd", "/does-not-exist"]
    (fun _ => some "No such file or directory") (fun c _ => c)
  have h2e := h2.2.1 "No such file or directory" (by decide) rfl
  exact ⟨(h1.1 (by decide)).1, h2e.1, h2e.2.1, h2e.2.2⟩

/-- Claim C7: contrary to the claim, a failed open of a redirection
target is NOT reported and the resulting NULL handle IS passed on.  At
the failing input — a trailing redirection with `fopen` returning NULL —
the code of shell.c reports no I/O error and hands the NULL file handle
to `fileno`/`dup2` unchecked, for both the output and the input
redirection forms. -/
theorem redirect_open_failure_unchecked :
    redirOpenStep (some ">") none =
      { errorReported := false, handleToDup := some none } ∧
    redirOpenStep (some "<") none =
      { errorReported := false, handleToDup := some none } := by
  decide

end Shell

namespace Shell

/-- Claim C8: the argv handed to the launched program is the token
sequence with a trailing redirection operator and its filename excluded
and a null entry appended; when the redirection test does not hold the
whole token sequence is passed, so a trailing background token & is not
stripped and arrives as the last argument before the null entry; the
argv always ends in the null entry. -/
theorem argv_construction (tokens : List String) :
    (isRedirToken (redirect_check tokens) = true →
      build_argv tokens (redirect_check tokens) =
        (tokens.take (tokens.length - 2)).map some ++ [none]) ∧
    (isRedirToken (redirect_check tokens) = false →
      build_argv tokens (redirect_check tokens) = tokens.map some ++ [none]) ∧
    (∀ front, tokens = front ++ ["&"] → isRedirToken (redirect_check tokens) = false →
      build_argv tokens (redirect_check tokens) = front.map some ++ [some "&", none]) ∧
    (build_argv tokens (redirect_check tokens)).getLast? = some none := by
  refine ⟨?_, ?_, ?_, ?_⟩
  · intro h
    simp [build_argv, h]
  · intro h
    simp [build_argv, h]
  · intro front hf h
    subst hf
    simp [build_argv, h]
    rw [List.take_of_length_le (by simp)]
    simp
  · simp [build_argv]

/-- Witness for C8 at concrete lines: for echo hi > out.txt the argv is
echo, hi, null with the operator and filename excluded; for sleep 1 & the
argv is sleep, 1, &, null with the background token passed through. -/
theorem argv_construction_witness :
    build_argv ["echo", "hi", ">", "out.txt"] (redirect_check ["echo", "hi", ">", "out.txt"]) =
      [some "echo", some "hi", none] ∧
    build_argv ["sleep", "1", "&"] (redirect_check ["sleep", "1", "&"]) =
      [some "sleep", some "1", some "&", none] := by
  have h1 := (argv_construction ["echo", "hi", ">", "out.txt"]).1 (by decide)
  have h2 := (argv_construction ["sleep", "1", "&"]).2.2.1 ["sleep", "1"] rfl (by decide)
  exact ⟨h1.trans (by decide), h2.trans (by decide)⟩

/-- Claim C9: provided the descriptors handed out by `fopen` and `dup`
are fresh (distinct from slots 0 and 1 and from each other), processing a
line restores the original open file descriptions onto slots 1 and 0
after the command, for every redirection shape; and when no redirection
token is present the setup does nothing and the unconditional restore
`dup2(1, 1); dup2(0, 0)` is a no-op on the whole table. -/
theorem descriptor_restore (t : Fds) (redirect : Option String) (fileDesc fdFile savedFd : Nat)
    (hf0 : fdFile ≠ 0) (hf1 : fdFile ≠ 1) (hs0 : savedFd ≠ 0) (hs1 : savedFd ≠ 1) :
    lineFds t redirect fileDesc fdFile savedFd 1 = t 1 ∧
    lineFds t redirect fileDesc fdFile savedFd 0 = t 0 ∧
    (isRedirToken redirect = false → lineFds t redirect fileDesc fdFile savedFd = t) := by
  by_cases hgt : redirect = some ">"
  · subst hgt
    refine ⟨?_, ?_, ?_⟩
    · simp [lineFds, redirSetup, redirRestore, dup2, dupTo,
        hf0, hf1, hs0, hs1, Ne.symm hf0, Ne.symm hf1, Ne.symm hs0, Ne.symm hs1]
    · simp [lineFds, redirSetup, redirRestore, dup2, dupTo,
        hf0, hf1, hs0, hs1, Ne.symm hf0, Ne.symm hf1, Ne.symm hs0, Ne.symm hs1]
    · intro h
      exact absurd h (by decide)
  · by_cases hlt : redirect = some "<"
    · subst hlt
      refine ⟨?_, ?_, ?_⟩
      · simp [lineFds, redirSetup, redirRestore, dup2, dupTo,
          hf0, hf1, hs0, hs1, Ne.symm hf0, Ne.symm hf1, Ne.symm hs0, Ne.symm hs1]
      · simp [lineFds, redirSetup, redirRestore, dup2, dupTo,
          hf0, hf1, hs0, hs1, Ne.symm hf0, Ne.symm hf1, Ne.symm hs0, Ne.symm hs1]
      · intro h
        exact absurd h (by decide)
    · have hid : lineFds t redirect fileDesc fdFile savedFd = t := by
        funext k
        simp only [lineFds, redirSetup, redirRestore, dup2, if_neg hgt, if_neg hlt]
        split_ifs with h1 h2 <;> simp_all
      exact ⟨by rw [hid], by rw [hid], fun _ => hid⟩

/-- Witness for C9 at a concrete table holding description 100 + k at
slot k, with the opened file at slot 5 and the saved descriptor at slot
6: after an output redirection the restored slots 1 and 0 hold their
original descriptions, and with no redirection the whole table is
unchanged. -/
theorem descriptor_restore_witness :
    lineFds (fun k => some (100 + k)) (some ">") 777 5 6 1 = some 101 ∧
    lineFds (fun k => some (100 + k)) (some ">") 777 5 6 0 = some 100 ∧
    lineFds (fun k => some (100 + k)) none 777 5 6 = (fun k => some (100 + k)) := by
  have h := descriptor_restore (fun k => some (100 + k)) (some ">") 777 5 6
    (by decide) (by decide) (by decide) (by decide)
  have h2 := descriptor_restore (fun k => some (100 + k)) none 777 5 6
    (by decide) (by decide) (by decide) (by decide)
  exact ⟨h.1, h.2.1, h2.2.2 (by decide)⟩

end Shell

namespace Shell

/-- Witness for the amended C3 at concrete pids 42 (child) and 7 (shell):
the parent trace is exactly transfer, wait-for-any, reclaim, with no
dispatcher reentry. -/
theorem foreground_terminal_handoff_order_witness :
    parentActions 42 7 true =
      [ParentAction.transferTerminal 42, ParentAction.waitAnyChild,
       ParentAction.reclaimTerminal 7] ∧
    ParentAction.dispatchReentry ∉ parentActions 42 7 true :=
  foreground_terminal_handoff_order 42 7

/-- Witness for C10 at a concrete operation sequence: two background
spawns, one `wait` builtin run and a foreground spawn leave the counter
nonnegative. -/
theorem num_bprocesses_nonneg_witness :
    0 ≤ runOps [ShellOp.backgroundSpawn, ShellOp.backgroundSpawn, ShellOp.waitBuiltin,
      ShellOp.foregroundSpawn] :=
  num_bprocesses_nonneg _

end Shell
